import Mathlib

/-!
# Verification of the Aladaia review-collection core

Shallow embedding of the collection pipeline of this repository
(`01_collect_data.py` and `scrape_google_maps.py`) together with proofs
settling the specification claims about it.

Conventions:
* Python numbers are modelled as `ℚ` (latitudes/longitudes, JSON numbers)
  or `Nat` (counters); 32-bit machine words inside MD5 are `Nat` values
  kept below `2^32` by explicit `% 2^32` masking.
* Python `str` is `String`; the substring operator `in` is contiguous
  infix search on the character list.
* Fallible calls (network requests, the Selenium driver) are oracles of
  type `Except String α`: `.error` is a raised exception.  Code without a
  surrounding `try` is embedded as an `Option`/`Except`-returning
  function (the exception propagates); code inside `try ... except`
  converts `.error` into the handler's result.
-/

set_option autoImplicit false
set_option maxRecDepth 100000

/-- `needle` occurs contiguously in `hay`. -/
def listInfix (needle : List Char) : List Char → Bool
  | [] => needle.isPrefixOf []
  | c :: rest => needle.isPrefixOf (c :: rest) || listInfix needle rest

/-- Python's `needle in hay` on strings: contiguous substring test. -/
def strContains (needle hay : String) : Bool :=
  listInfix needle.data hay.data

/-- ASCII lowercasing of one character. -/
def pyLowerChar (c : Char) : Char :=
  if 'A' ≤ c && c ≤ 'Z' then Char.ofNat (c.toNat + 32) else c

/-- Python `str.lower()`.  (Python also lowercases non-ASCII letters;
every lowercased string in this code base is only ever searched for
ASCII keywords, so the difference is immaterial here.) -/
def pyLower (s : String) : String := String.mk (s.data.map pyLowerChar)

/-!
## MD5 (`hashlib.md5(...).hexdigest()`)

`01_collect_data.py` fingerprints a review as
`hashlib.md5((text + "|" + store).encode()).hexdigest()`.  We embed the
full MD5 algorithm of RFC 1321 over `Nat`, together with Python's UTF-8
`str.encode`.
-/
namespace MD5

def mask32 (n : Nat) : Nat := n % 4294967296

def add32 (a b : Nat) : Nat := mask32 (a + b)

/-- 32-bit complement; correct for inputs below `2^32`. -/
def lnot32 (a : Nat) : Nat := 4294967295 - a

/-- Left-rotation of a 32-bit word. -/
def rotl (x n : Nat) : Nat := mask32 (x <<< n) ||| (x >>> (32 - n))

/-- The 64 sine-derived round constants of RFC 1321. -/
def K : List Nat :=
  [0xd76aa478, 0xe8c7b756, 0x242070db, 0xc1bdceee,
   0xf57c0faf, 0x4787c62a, 0xa8304613, 0xfd469501,
   0x698098d8, 0x8b44f7af, 0xffff5bb1, 0x895cd7be,
   0x6b901122, 0xfd987193, 0xa679438e, 0x49b40821,
   0xf61e2562, 0xc040b340, 0x265e5a51, 0xe9b6c7aa,
   0xd62f105d, 0x02441453, 0xd8a1e681, 0xe7d3fbc8,
   0x21e1cde6, 0xc33707d6, 0xf4d50d87, 0x455a14ed,
   0xa9e3e905, 0xfcefa3f8, 0x676f02d9, 0x8d2a4c8a,
   0xfffa3942, 0x8771f681, 0x6d9d6122, 0xfde5380c,
   0xa4beea44, 0x4bdecfa9, 0xf6bb4b60, 0xbebfbc70,
   0x289b7ec6, 0xeaa127fa, 0xd4ef3085, 0x04881d05,
   0xd9d4d039, 0xe6db99e5, 0x1fa27cf8, 0xc4ac5665,
   0xf4292244, 0x432aff97, 0xab9423a7, 0xfc93a039,
   0x655b59c3, 0x8f0ccc92, 0xffeff47d, 0x85845dd1,
   0x6fa87e4f, 0xfe2ce6e0, 0xa3014314, 0x4e0811a1,
   0xf7537e82, 0xbd3af235, 0x2ad7d2bb, 0xeb86d391]

/-- The 64 per-round left-rotation amounts. -/
def S : List Nat :=
  [7, 12, 17, 22, 7, 12, 17, 22, 7, 12, 17, 22, 7, 12, 17, 22,
   5,  9, 14, 20, 5,  9, 14, 20, 5,  9, 14, 20, 5,  9, 14, 20,
   4, 11, 16, 23, 4, 11, 16, 23, 4, 11, 16, 23, 4, 11, 16, 23,
   6, 10, 15, 21, 6, 10, 15, 21, 6, 10, 15, 21, 6, 10, 15, 21]

/-- One MD5 round applied to the state `(A, B, C, D)`; `M` is the
current 16-word message block and `i` the round index. -/
def round (M : List Nat) (st : Nat × Nat × Nat × Nat) (i : Nat) :
    Nat × Nat × Nat × Nat :=
  let (A, B, C, D) := st
  let fg : Nat × Nat :=
    if i < 16 then ((B &&& C) ||| (lnot32 B &&& D), i)
    else if i < 32 then ((D &&& B) ||| (lnot32 D &&& C), (5 * i + 1) % 16)
    else if i < 48 then (B ^^^ C ^^^ D, (3 * i + 5) % 16)
    else (C ^^^ (B ||| lnot32 D), (7 * i) % 16)
  let f := add32 (add32 (add32 fg.1 A) (K.getD i 0)) (M.getD fg.2 0)
  (D, add32 B (rotl f (S.getD i 0)), B, C)

/-- Compress one 16-word block into the running state. -/
def compress (st : Nat × Nat × Nat × Nat) (M : List Nat) :
    Nat × Nat × Nat × Nat :=
  let (a0, b0, c0, d0) := st
  let r := (List.range 64).foldl (round M) st
  (add32 a0 r.1, add32 b0 r.2.1, add32 c0 r.2.2.1, add32 d0 r.2.2.2)

/-- Decode a 64-byte chunk into 16 little-endian 32-bit words. -/
def words16 (chunk : List Nat) : List Nat :=
  (List.range 16).map fun g =>
    chunk.getD (4 * g) 0 + 256 * chunk.getD (4 * g + 1) 0 +
      65536 * chunk.getD (4 * g + 2) 0 + 16777216 * chunk.getD (4 * g + 3) 0

/-- Split a byte list into 64-byte chunks (`fuel` bounds the number of
chunks; each step consumes at least one byte, so `l.length` is always
enough fuel). -/
def chunksGo : Nat → List Nat → List (List Nat)
  | 0, _ => []
  | _, [] => []
  | fuel + 1, b :: rest => ((b :: rest).take 64) :: chunksGo fuel ((b :: rest).drop 64)

/-- Split a byte list into 64-byte chunks. -/
def chunks (l : List Nat) : List (List Nat) := chunksGo l.length l

/-- MD5 padding: `0x80`, zeros to 56 mod 64, then the bit length as a
little-endian 64-bit integer. -/
def padded (msg : List Nat) : List Nat :=
  let len := msg.length
  let zeros := (56 + 64 - (len + 1) % 64) % 64
  msg ++ [0x80] ++ List.replicate zeros 0 ++
    (List.range 8).map fun i => (((8 * len) % 18446744073709551616) >>> (8 * i)) &&& 255

/-- UTF-8 encoding of one scalar value (Python `str.encode()`). -/
def utf8Char (c : Char) : List Nat :=
  let n := c.toNat
  if n < 0x80 then [n]
  else if n < 0x800 then
    [0xC0 ||| (n >>> 6), 0x80 ||| (n &&& 0x3F)]
  else if n < 0x10000 then
    [0xE0 ||| (n >>> 12), 0x80 ||| ((n >>> 6) &&& 0x3F), 0x80 ||| (n &&& 0x3F)]
  else
    [0xF0 ||| (n >>> 18), 0x80 ||| ((n >>> 12) &&& 0x3F),
     0x80 ||| ((n >>> 6) &&& 0x3F), 0x80 ||| (n &&& 0x3F)]

def utf8Bytes (s : String) : List Nat := (s.data.map utf8Char).flatten

/-- The four final state words of MD5 over a string's UTF-8 bytes. -/
def md5words (s : String) : Nat × Nat × Nat × Nat :=
  (chunks (padded (utf8Bytes s))).foldl (fun st ch => compress st (words16 ch))
    (0x67452301, 0xefcdab89, 0x98badcfe, 0x10325476)

/-- The lowercase hex digit for a value below 16. -/
def hexDigitChar (n : Nat) : Char :=
  if n < 10 then Char.ofNat (48 + n) else Char.ofNat (87 + n)

def byteHex (b : Nat) : List Char := [hexDigitChar (b / 16 % 16), hexDigitChar (b % 16)]

/-- Hex rendering of one word, little-endian byte order (as in a digest). -/
def wordHex (w : Nat) : List Char :=
  byteHex (w &&& 255) ++ byteHex ((w >>> 8) &&& 255) ++
    byteHex ((w >>> 16) &&& 255) ++ byteHex ((w >>> 24) &&& 255)

/-- `hashlib.md5(s.encode()).hexdigest()`. -/
def md5hex (s : String) : String :=
  let (a, b, c, d) := md5words s
  String.mk (wordHex a ++ wordHex b ++ wordHex c ++ wordHex d)

end MD5

/-!
## Python values and dicts

API payloads and review records are Python dicts/JSON values.
-/

/-- A Python/JSON value as it appears in API payloads and review dicts. -/
inductive JVal where
  | null
  | bool (b : Bool)
  | num (q : ℚ)
  | str (s : String)
  | arr (elems : List JVal)
  | obj (fields : List (String × JVal))

/-- A Python dict with `str` keys, in insertion order. -/
def Row : Type := List (String × JVal)

namespace Row

/-- `row[k]` when present (first binding wins, as in a dict). -/
def lookup (r : Row) (k : String) : Option JVal := List.lookup k r

/-- `row.get(k, d)`. -/
def getD (r : Row) (k : String) (d : JVal) : JVal := (r.lookup k).getD d

/-- `row[k] = v`: replace in place if the key exists, else append. -/
def setKey : Row → String → JVal → Row
  | [], k, v => [(k, v)]
  | (k', v') :: rest, k, v =>
    if k' == k then (k, v) :: rest else (k', v') :: setKey rest k v

/-- `row.update({...})` in the argument's order. -/
def update (r : Row) (kvs : List (String × JVal)) : Row :=
  kvs.foldl (fun acc kv => acc.setKey kv.1 kv.2) r

end Row

/-!
## `01_collect_data.py`
-/
namespace Collect

def PARIS_LAT : ℚ × ℚ := (mkRat 48815 1000, mkRat 48902 1000)
def PARIS_LNG : ℚ × ℚ := (mkRat 2225 1000, mkRat 2420 1000)

def is_paris_intra (lat lng : ℚ) : Bool :=
  (decide (PARIS_LAT.1 ≤ lat) && decide (lat ≤ PARIS_LAT.2)) &&
    (decide (PARIS_LNG.1 ≤ lng) && decide (lng ≤ PARIS_LNG.2))

def classify_zone (lat lng : ℚ) (region : String) : String :=
  if strContains "France" region && (strContains "Ile" region || strContains "le-de" region) then
    if is_paris_intra lat lng then "Paris Intra Muros" else "Paris Extra Muros"
  else "Province"

/-- `r.get("review_text","") + "|" + r.get("store_name","")`; `none` when a
field holds a non-string value (Python raises `TypeError` on `+`). -/
def dedupKey (r : Row) : Option String :=
  match r.getD "review_text" (.str ""), r.getD "store_name" (.str "") with
  | .str t, .str s => some (t ++ "|" ++ s)
  | _, _ => none

/-- The record fingerprint: MD5 hexdigest of the dedup key. -/
def fingerprint (r : Row) : Option String := (dedupKey r).map MD5.md5hex

/-- The loop body of `dedup`: `seen` is the set of fingerprints met so far,
`out` the kept records in order.  A raised key computation aborts the call
(`none`). -/
def dedupGo : List Row → List String → List Row → Option (List Row)
  | [], _, out => some out
  | r :: rs, seen, out =>
    match dedupKey r with
    | none => none
    | some key =>
      let h := MD5.md5hex key
      if h ∈ seen then dedupGo rs seen out
      else dedupGo rs (h :: seen) (out ++ [r])

/-- `dedup(reviews)`: keep the first-seen record per fingerprint. -/
def dedup (reviews : List Row) : Option (List Row) := dedupGo reviews [] []

/-- The keyword → region dict of `OutscraperScraper._region`, in insertion
order (Python iterates dicts in that order). -/
def regionTable : List (String × String) :=
  [("paris", "Ile-de-France"), ("75", "Ile-de-France"), ("92", "Ile-de-France"),
   ("93", "Ile-de-France"), ("94", "Ile-de-France"), ("78", "Ile-de-France"),
   ("grenoble", "Auvergne-Rhone-Alpes"), ("lyon", "Auvergne-Rhone-Alpes"),
   ("38", "Auvergne-Rhone-Alpes"), ("69", "Auvergne-Rhone-Alpes"),
   ("marseille", "PACA"), ("nice", "PACA"), ("13", "PACA"),
   ("toulouse", "Occitanie"), ("bordeaux", "Nouvelle-Aquitaine"),
   ("lille", "Hauts-de-France"), ("strasbourg", "Grand Est"),
   ("rennes", "Bretagne"), ("nantes", "Pays de la Loire")]

/-- `OutscraperScraper._region(addr)`. -/
def region (addr : String) : String :=
  match regionTable.find? (fun kv => strContains kv.1 (pyLower addr)) with
  | some kv => kv.2
  | none => "France"

/-- A store dict built by `OutscraperScraper.find_stores`; only `name` was
forced to be a string (by `.lower()`), the rest is stored as received. -/
structure Store where
  name : String
  address : JVal
  lat : JVal
  lng : JVal
  place_id : JVal

/-- Python iteration over a JSON value: lists yield elements, strings yield
one-character strings, dicts yield their keys; other values raise. -/
def asIterList : JVal → Option (List JVal)
  | .arr xs => some xs
  | .str s => some (s.data.map fun c => .str (String.mk [c]))
  | .obj kvs => some (kvs.map fun kv => .str kv.1)
  | _ => none

/-- One `item` of `find_stores`' inner loop: `none` = raised (non-string
`name` hits `.lower()`), `some none` = filtered out, `some (some s)` = kept. -/
def storeOfItem (kvs : List (String × JVal)) : Option (Option Store) :=
  match Row.getD kvs "name" (.str "") with
  | .str nm =>
    if strContains "intersport" (pyLower nm) then
      some (some { name := nm, address := Row.getD kvs "full_address" (.str ""),
                   lat := Row.getD kvs "latitude" (.num 0),
                   lng := Row.getD kvs "longitude" (.num 0),
                   place_id := Row.getD kvs "place_id" (.str "") })
    else some none
  | _ => none

def storesOfItems : List JVal → Option (List Store)
  | [] => some []
  | .obj kvs :: rest => do
      let s? ← storeOfItem kvs
      let others ← storesOfItems rest
      match s? with
      | some s => return s :: others
      | none => return others
  | _ :: rest => storesOfItems rest

def storesOfData : List JVal → Option (List Store)
  | [] => some []
  | place :: rest => do
      let items := match place with | .arr xs => xs | x => [x]
      let s1 ← storesOfItems items
      let s2 ← storesOfData rest
      return s1 ++ s2

/-- `OutscraperScraper.find_stores`: the whole body is wrapped in
`try ... except: return []`, so a failed request (`.error`) or any raised
parse step yields `[]`. -/
def find_stores (resp : Except String JVal) : List Store :=
  match resp with
  | .error _ => []
  | .ok j =>
    (do
      let data ← match j with
        | .obj kvs => some (Row.getD kvs "data" (.arr []))
        | _ => none
      let elems ← asIterList data
      storesOfData elems).getD []

/-- Python `len()` of a value: strings, lists and dicts are sized;
`len()` of a number, a boolean or `None` raises `TypeError`. -/
def jlen : JVal → Option Nat
  | .str s => some s.length
  | .arr xs => some xs.length
  | .obj kvs => some kvs.length
  | _ => none

/-- One review dict built by `OutscraperScraper.get_reviews`.  The
`review_text` value is stored exactly as received: the length filter
accepts any sized value, not only strings. -/
def mkReview (kvs : List (String × JVal)) (text : JVal) : Row :=
  [("review_text", text), ("rating", Row.getD kvs "review_rating" (.num 0)),
   ("date", Row.getD kvs "review_datetime_utc" (.str "")),
   ("reviewer_name", Row.getD kvs "author_title" (.str "Anonyme"))]

/-- The `for rev in item.get("reviews_data", [])` loop.  A non-dict entry
raises at `rev.get`; `len(text)` is the length of a string, list or dict
value and raises on a number, a boolean or `None`, so a review whose
sized `review_text` has length at least 10 is appended even when it is
not a string. -/
def revsOfList : List JVal → Option (List Row)
  | [] => some []
  | .obj kvs :: rest => do
      let others ← revsOfList rest
      let text := Row.getD kvs "review_text" (.str "")
      match jlen text with
      | some n =>
        if n < 10 then return others
        else return mkReview kvs text :: others
      | none => none
  | _ :: _ => none

def revsOfItems : List JVal → Option (List Row)
  | [] => some []
  | .obj kvs :: rest => do
      let inner ← asIterList (Row.getD kvs "reviews_data" (.arr []))
      let here ← revsOfList inner
      let others ← revsOfItems rest
      return here ++ others
  | _ :: rest => revsOfItems rest

def revsOfData : List JVal → Option (List Row)
  | [] => some []
  | place :: rest => do
      let items := match place with | .arr xs => xs | x => [x]
      let r1 ← revsOfItems items
      let r2 ← revsOfData rest
      return r1 ++ r2

/-- `OutscraperScraper.get_reviews`: fully wrapped in
`try ... except: return []`. -/
def get_reviews (resp : Except String JVal) : List Row :=
  match resp with
  | .error _ => []
  | .ok j =>
    (do
      let data ← match j with
        | .obj kvs => some (Row.getD kvs "data" (.arr []))
        | _ => none
      let elems ← asIterList data
      revsOfData elems).getD []

end Collect

/-- Python `str.strip()`: drop whitespace from both ends. -/
def pyStrip (s : String) : String :=
  String.mk (((s.data.dropWhile Char.isWhitespace).reverse.dropWhile Char.isWhitespace).reverse)

/-- Try the city pattern `\d{5}\s+([cls]+)` at the head of the character
list: five digits, at least one whitespace, then a nonempty greedy run of
class characters (the capture group). -/
def cityMatchAt (cls : Char → Bool) (cs : List Char) : Option (List Char) :=
  match cs with
  | c1 :: c2 :: c3 :: c4 :: c5 :: rest =>
    if c1.isDigit && c2.isDigit && c3.isDigit && c4.isDigit && c5.isDigit then
      let sp := rest.takeWhile Char.isWhitespace
      let cap := (rest.dropWhile Char.isWhitespace).takeWhile cls
      if sp.length > 0 && cap.length > 0 then some cap else none
    else none
  | _ => none

/-- `re.search`: leftmost position where the city pattern matches. -/
def citySearch (cls : Char → Bool) : List Char → Option (List Char)
  | [] => none
  | c :: rest =>
    match cityMatchAt cls (c :: rest) with
    | some cap => some cap
    | none => citySearch cls rest

namespace Collect

/-- The character class `[A-Za-z\s-]` of the inline city regex in
`scrape_area`. -/
def cityChar (c : Char) : Bool :=
  ('A' ≤ c && c ≤ 'Z') || ('a' ≤ c && c ≤ 'z') || c.isWhitespace || c == '-'

/-- The inline city extraction of `scrape_area`:
`re.search(r'\d{5}\s+([A-Za-z\s-]+)', address)`, else the second-to-last
comma field, else `""`. -/
def cityOfAddress (addr : String) : String :=
  match citySearch cityChar addr.data with
  | some cap => pyStrip (String.mk cap)
  | none =>
    if strContains "," addr then
      let parts := addr.splitOn ","
      pyStrip (parts.getD (parts.length - 2) "")
    else ""

def asStr : JVal → Option String
  | .str s => some s
  | _ => none

def asNum : JVal → Option ℚ
  | .num q => some q
  | _ => none

/-- One store's processing inside `scrape_area`.  `scrape_area` has no
`try`, so a raised step (non-string `place_id` sliced in the log line,
non-string `address` fed to `re.search`/`.lower()`, non-numeric
coordinates compared in `classify_zone`) propagates: `none`. -/
def areaStoreRows (revResp : String → Except String JVal) (st : Store) :
    Option (List Row) := do
  let pid ← asStr st.place_id
  let revs := get_reviews (revResp pid)
  let addr ← asStr st.address
  let city := cityOfAddress addr
  let reg := region addr
  let lat ← asNum st.lat
  let lng ← asNum st.lng
  let zone := classify_zone lat lng reg
  return revs.map fun r => r.update
    [("store_name", .str st.name), ("address", st.address), ("city", .str city),
     ("zone", .str zone), ("region", .str reg), ("latitude", st.lat),
     ("longitude", st.lng), ("source", .str "outscraper")]

def areaRows (revResp : String → Except String JVal) : List Store → Option (List Row)
  | [] => some []
  | st :: rest => do
      let rows ← areaStoreRows revResp st
      let others ← areaRows revResp rest
      return rows ++ others

/-- `OutscraperScraper.scrape_area(area)`: find stores, fetch and enrich
reviews per store, then deduplicate the accumulated batch. -/
def scrape_area (findResp : Except String JVal)
    (revResp : String → Except String JVal) : Option (List Row) := do
  let all ← areaRows revResp (find_stores findResp)
  dedup all

/-- Truthiness test of `main`:
`os.environ.get("USE_SELENIUM","").lower() in ("1","true","yes")`. -/
def truthy (s : String) : Bool :=
  pyLower s == "1" || pyLower s == "true" || pyLower s == "yes"

/-- The branch `main()` enters. -/
inductive SourceSel where
  | selenium
  | outscraper
  | simulated
deriving DecidableEq

/-- The `if use_selenium / elif okey and HAS_REQUESTS / (fallback)`
selection in `main()`.  `env` is `os.environ.get` (returning `""` for an
absent variable); `main` reads only `OUTSCRAPER_API_KEY` and
`USE_SELENIUM`. -/
def pickBranch (env : String → String) (hasRequests : Bool) : SourceSel :=
  if truthy (env "USE_SELENIUM") then .selenium
  else if env "OUTSCRAPER_API_KEY" != "" && hasRequests then .outscraper
  else .simulated

/-- Which generator's records `main()` persists: the selected branch's
collected reviews if any, else the simulated fallback
(`if not reviews: reviews = generate_simulated(25)`).  `importOk` is
whether `from scrape_google_maps import GoogleMapsScraper` succeeds —
in this repository it cannot, since `scrape_google_maps.py` defines no
name `GoogleMapsScraper`, and the `except ImportError` handler leaves
`reviews` empty.  `selCount`/`outCount` are the sizes of the respective
branch results. -/
def effectiveSource (env : String → String) (hasRequests : Bool)
    (importOk : Bool) (selCount outCount : Nat) : SourceSel :=
  let collected : Nat :=
    match pickBranch env hasRequests with
    | .selenium => if importOk then selCount else 0
    | .outscraper => outCount
    | .simulated => 0
  if collected = 0 then .simulated else pickBranch env hasRequests

end Collect

/-!
## `scrape_google_maps.py`
-/
namespace Scrape

/-- The fixed work-unit list `CITIES` (name, search latitude/longitude). -/
def CITIES : List (String × ℚ × ℚ) :=
  [("Paris", mkRat 488566 10000, mkRat 23522 10000), ("Creteil", mkRat 487835 10000, mkRat 24598 10000),
   ("Velizy", mkRat 487847 10000, mkRat 219 100), ("Grenoble", mkRat 451885 10000, mkRat 57245 10000),
   ("Lyon", mkRat 45764 1000, mkRat 48357 10000), ("Marseille", mkRat 432965 10000, mkRat 53698 10000),
   ("Bordeaux", mkRat 448378 10000, mkRat (-5792) 10000), ("Lille", mkRat 506292 10000, mkRat 30573 10000),
   ("Toulouse", mkRat 436047 10000, mkRat 14442 10000), ("Nice", mkRat 437102 10000, mkRat 7262 1000),
   ("Strasbourg", mkRat 485734 10000, mkRat 77521 10000), ("Rennes", mkRat 481173 10000, mkRat (-16778) 10000),
   ("Nantes", mkRat 472184 10000, mkRat (-15536) 10000), ("Annecy", mkRat 458992 10000, mkRat 61294 10000),
   ("Montpellier", mkRat 436108 10000, mkRat 38767 10000)]

def PARIS_LAT : ℚ × ℚ := (mkRat 48815 1000, mkRat 48902 1000)
def PARIS_LNG : ℚ × ℚ := (mkRat 2225 1000, mkRat 2420 1000)

/-- The keyword → region pair list of `guess_region`, in source order. -/
def regionTable : List (String × String) :=
  [("paris", "Ile-de-France"), ("75", "Ile-de-France"), ("92", "Ile-de-France"),
   ("93", "Ile-de-France"), ("94", "Ile-de-France"), ("78", "Ile-de-France"),
   ("creteil", "Ile-de-France"), ("velizy", "Ile-de-France"), ("rosny", "Ile-de-France"),
   ("grenoble", "Auvergne-Rhone-Alpes"), ("lyon", "Auvergne-Rhone-Alpes"),
   ("annecy", "Auvergne-Rhone-Alpes"), ("chambery", "Auvergne-Rhone-Alpes"),
   ("marseille", "PACA"), ("nice", "PACA"), ("toulouse", "Occitanie"),
   ("montpellier", "Occitanie"), ("bordeaux", "Nouvelle-Aquitaine"),
   ("lille", "Hauts-de-France"), ("strasbourg", "Grand Est"),
   ("rennes", "Bretagne"), ("nantes", "Pays de la Loire")]

/-- `guess_region(text)`. -/
def guess_region (text : String) : String :=
  match regionTable.find? (fun kv => strContains kv.1 (pyLower text)) with
  | some kv => kv.2
  | none => "France"

/-- `classify_zone(lat, lng, region)` of `scrape_google_maps.py`. -/
def classify_zone (lat lng : ℚ) (region : String) : String :=
  if strContains "Ile-de-France" region then
    if (decide (PARIS_LAT.1 ≤ lat) && decide (lat ≤ PARIS_LAT.2)) &&
        (decide (PARIS_LNG.1 ≤ lng) && decide (lng ≤ PARIS_LNG.2)) then
      "Paris Intra Muros"
    else "Paris Extra Muros"
  else "Province"

/-- The character class `[A-Za-zÀ-ſ\s-]` of `extract_city`'s
regex (ASCII letters, the Latin-1/Latin-Extended-A accented range,
whitespace, hyphen). -/
def cityChar (c : Char) : Bool :=
  ('A' ≤ c && c ≤ 'Z') || ('a' ≤ c && c ≤ 'z') ||
    (0xC0 ≤ c.toNat && c.toNat ≤ 0x17F) || c.isWhitespace || c == '-'

/-- `extract_city(addr)`: regex capture, else second-to-last comma field,
else the address itself. -/
def extract_city (addr : String) : String :=
  match citySearch cityChar addr.data with
  | some cap => pyStrip (String.mk cap)
  | none =>
    if strContains "," addr then
      let parts := addr.splitOn ","
      pyStrip (parts.getD (parts.length - 2) "")
    else addr

/-- A store link in the search feed: the stripped `aria-label` and the
`href` of one `a.hfpxzc` element (absent attributes read as `""`). -/
structure FeedLink where
  label : String
  href : String

/-- The collection loop of `find_stores` with its `seen` href set. -/
def collectLinks : List FeedLink → List String → List FeedLink
  | [], _ => []
  | l :: rest, seen =>
    if strContains "intersport" (pyLower l.label) && l.href != "" && !(seen.contains l.href) then
      l :: collectLinks rest (l.href :: seen)
    else collectLinks rest seen

/-- `find_stores(driver, city, lat, lng)`.  The leading `driver.get(url)`
is not inside any `try` — a navigation/session failure propagates to the
caller — so the embedding takes the rendered feed as an
`Except`-valued oracle and returns an `Except`. -/
def find_stores (nav : Except String (List FeedLink)) :
    Except String (List FeedLink) :=
  match nav with
  | .error e => .error e
  | .ok els =>
    .ok (collectLinks (els.map fun l => { l with label := pyStrip l.label }) [])

/-- One rendered `div.jftiEf` review card as read by the BeautifulSoup
loop of `scrape_reviews`.  `dateText` is the `parse_date` result for the
card's relative-date span (`parse_date` reads the wall clock
`datetime.now()`, so its output is supplied by the oracle; `""` when the
span is absent). -/
structure DivO where
  reviewer : Option String
  kvLabel : Option String
  ariaLabels : List String
  dateText : String
  text : Option String

/-- `re.search(r'(\d)', s)`: value of the first digit character. -/
def firstDigit (s : String) : Option Nat :=
  (s.data.find? Char.isDigit).map fun c => c.toNat - 48

/-- Does the character list start with one of the rating keywords
(`star|toile|sur|/`, already lowercased)? -/
def startsKeyword (cs : List Char) : Bool :=
  "star".data.isPrefixOf cs || "toile".data.isPrefixOf cs ||
    "sur".data.isPrefixOf cs || "/".data.isPrefixOf cs

/-- `re.search(r'(\d)\s*(?:star|toile|sur|/)', s, re.I)` on a lowercased
character list: leftmost digit followed by optional whitespace and a
keyword. -/
def digitKeyword : List Char → Option Nat
  | [] => none
  | c :: rest =>
    if c.isDigit && startsKeyword (rest.dropWhile Char.isWhitespace) then
      some (c.toNat - 48)
    else digitKeyword rest

/-- The two-stage rating extraction: first digit of the `span.kvMYJc`
`aria-label` if present, else the first `aria-label` attribute matching
the digit-keyword pattern. -/
def extractRating (d : DivO) : Nat :=
  let r0 : Nat :=
    match d.kvLabel with
    | some l => (firstDigit l).getD 0
    | none => 0
  if r0 = 0 then
    match d.ariaLabels.findSome? (fun l => digitKeyword (pyLower l).data) with
    | some n => n
    | none => 0
  else r0

/-- One review card parsed by the BeautifulSoup loop; `none` when the card
is rejected by `if text and len(text) >= 5 and rating > 0`. -/
def parseDiv (d : DivO) : Option Row :=
  let reviewer := d.reviewer.getD "Anonyme"
  let rating := extractRating d
  let text := d.text.getD ""
  if text != "" && decide (5 ≤ text.length) && decide (0 < rating) then
    some [("review_text", .str text), ("rating", .num rating),
          ("date", .str d.dateText), ("reviewer_name", .str reviewer)]
  else none

/-- What one successfully rendered store page yields to `scrape_reviews`:
header name, address, GPS from the URL, whether a reviews tab could be
opened, and the rendered review cards (their number already reflects the
scrolling bounded by `max_rev`). -/
structure VisitO where
  name : String
  address : String
  lat : ℚ
  lng : ℚ
  opened : Bool
  divs : List DivO

/-- `scrape_reviews(driver, href, max_rev)`.  The leading
`driver.get(href)` is not inside any `try`: a navigation/session failure
propagates to the caller.  With no reviews tab the store yields an empty
list; otherwise the parsed, accepted cards. -/
def scrape_reviews (nav : Except String VisitO) :
    Except String (String × String × ℚ × ℚ × List Row) :=
  match nav with
  | .error e => .error e
  | .ok v =>
    if v.opened then .ok (v.name, v.address, v.lat, v.lng, v.divs.filterMap parseDiv)
    else .ok (v.name, v.address, v.lat, v.lng, [])

end Scrape

namespace Scrape

/-- Decimal digit characters of a natural number, most significant
first (`fuel` bounds the number of digits; `n + 1` is always enough). -/
def decCharsGo : Nat → Nat → List Char
  | 0, _ => []
  | fuel + 1, n =>
    if n < 10 then [Char.ofNat (48 + n)]
    else decCharsGo fuel (n / 10) ++ [Char.ofNat (48 + n % 10)]

/-- Decimal digit characters of a natural number. -/
def decChars (n : Nat) : List Char := decCharsGo (n + 1) n

/-- Python `f"{n:05d}"` for a natural number. -/
def fmt05 (n : Nat) : String :=
  String.mk (List.replicate (5 - (decChars n).length) '0' ++ decChars n)

/-- The generated review identifier `f"REV-{counter:05d}"`. -/
def revId (n : Nat) : String := "REV-" ++ fmt05 n

/-- The `for r in reviews: counter += 1; r.update({...})` loop of
`main()`: assign the next identifiers and denormalize the store's
attributes onto each review. -/
def numberRows (cityName name address scity zone reg : String) (lat lng : ℚ)
    (counter : Nat) : List Row → List Row × Nat
  | [] => ([], counter)
  | r :: rest =>
    let c' := counter + 1
    let r' := r.update
      [("review_id", .str (revId c')), ("store_name", .str name),
       ("address", .str address), ("city", .str scity), ("zone", .str zone),
       ("region", .str reg), ("latitude", .num lat), ("longitude", .num lng),
       ("source", .str "google_maps"), ("search_city", .str cityName)]
    let (others, c'') :=
      numberRows cityName name address scity zone reg lat lng c' rest
    (r' :: others, c'')

/-- The enrichment of one store's scraped result inside `main()`'s store
loop (name fallback, region, zone, city, numbering). -/
def enrich (cityName : String) (counter : Nat) (linkName : String)
    (res : String × String × ℚ × ℚ × List Row) : List Row × Nat :=
  let (name0, address, lat, lng, revs) := res
  let name := if name0 = "" then linkName else name0
  let reg := guess_region (if address = "" then cityName else address)
  let zone := classify_zone lat lng reg
  let scity := if address = "" then cityName else extract_city address
  numberRows cityName name address scity zone reg lat lng counter revs

/-- The session-fault heuristic of the store loop's handler:
`"session" in str(e).lower()`. -/
def sessionErr (m : String) : Bool := strContains "session" (pyLower m)

/-- The per-city oracle: the rendered search feed (or the exception
raised while producing it) and each store page visit's outcome by
`href`. -/
structure CityOracle where
  feed : Except String (List FeedLink)
  visit : String → Except String VisitO

/-- The `for i, store in enumerate(stores)` loop of `main()` with its
per-store `try/except`: a non-session error skips the store, a session
error breaks out of the remaining stores of the city. -/
def storeLoop (o : CityOracle) (cityName : String) (counter : Nat) :
    List FeedLink → List Row × Nat
  | [] => ([], counter)
  | link :: rest =>
    match scrape_reviews (o.visit link.href) with
    | .error m =>
      if sessionErr m then ([], counter)
      else storeLoop o cityName counter rest
    | .ok res =>
      let (rows, c') := enrich cityName counter link.label res
      let (others, c'') := storeLoop o cityName c' rest
      (rows ++ others, c'')

/-- One non-skipped city of `main()`'s loop: a `make_driver`/`find_stores`
failure is caught by the per-city `except`, contributing no rows. -/
def runCity (o : CityOracle) (cityName : String) (counter : Nat) :
    List Row × Nat :=
  match find_stores o.feed with
  | .error _ => ([], counter)
  | .ok stores => storeLoop o cityName counter stores

/-- `city_name in done_cities` (Python set membership; a string never
equals a non-string value). -/
def isDone (done : List JVal) (n : String) : Bool :=
  done.any fun v => match v with | .str s => s == n | _ => false

/-- The city loop of `main()`: skip done cities, process the rest in
order, threading the identifier counter. -/
def runCities (oracle : String → CityOracle) (done : List JVal)
    (counter : Nat) : List (String × ℚ × ℚ) → List Row × Nat
  | [] => ([], counter)
  | (cityName, _, _) :: rest =>
    if isDone done cityName then runCities oracle done counter rest
    else
      let (rows, c') := runCity (oracle cityName) cityName counter
      let (others, c'') := runCities oracle done c' rest
      (rows ++ others, c'')

/-- The `done_cities` set accumulated by `load_existing` (every
`search_city` value of the persisted rows). -/
def doneOf (rows : List Row) : List JVal :=
  rows.filterMap fun r => r.lookup "search_city"

/-- `load_existing()`: `file` is the parsed persisted CSV, `none` when
the output file does not exist. -/
def load_existing (file : Option (List Row)) : List Row × List JVal :=
  match file with
  | none => ([], [])
  | some rows => (rows, doneOf rows)

/-- The accumulated batch at the end of `main()` (and the rows the final
`save_all` persists): the resumed rows followed by everything collected
this run; the identifier counter starts at `len(all_reviews)`. -/
def runMain (file : Option (List Row)) (oracle : String → CityOracle) :
    List Row :=
  let (existing, done) := load_existing file
  existing ++ (runCities oracle done existing.length CITIES).1

/-- The cities a run with done-set `done` actually processes. -/
def processedCities (done : List JVal) : List String :=
  (CITIES.map fun c => c.1).filter fun n => !(isDone done n)

/-- The CSV header of `save_all`. -/
def FIELDS : List String :=
  ["review_id", "review_text", "rating", "date", "reviewer_name",
   "store_name", "address", "city", "zone", "region",
   "latitude", "longitude", "source", "search_city"]

/-- One CSV line: `extrasaction="ignore"` drops extra keys, a missing key
becomes the empty `restval`. -/
def rowCells (r : Row) : List JVal :=
  FIELDS.map fun f => r.getD f (.str "")

/-- The complete content `save_all(reviews)` writes: header line then one
line per review. -/
def fileLines (reviews : List Row) : List (List JVal) :=
  (FIELDS.map JVal.str) :: reviews.map rowCells

/-- On-disk content after `save_all(reviews)` completes over previous
content `prev` (an empty batch returns without touching the file). -/
def save_all (prev : List (List JVal)) (reviews : List Row) :
    List (List JVal) :=
  if reviews.isEmpty then prev else fileLines reviews

/-- Every on-disk content an interrupted `save_all(reviews)` can leave
behind.  `save_all` opens the destination itself with mode `"w"` — no
temporary file, no atomic replace — so after the `open` the file is
truncated and then grows line by line: the possible states are the old
content (before `open`) and every prefix of the new content. -/
def saveStates (prev : List (List JVal)) (reviews : List Row) :
    List (List (List JVal)) :=
  if reviews.isEmpty then [prev]
  else
    prev :: (List.range ((fileLines reviews).length + 1)).map
      fun k => (fileLines reviews).take k

end Scrape

/-!
## Proof-side and specification-side definitions
-/

namespace Collect

/-- Structural form of the `dedup` loop (proof helper): the kept records
of the remaining list given the fingerprints already seen. -/
def dedupAux : List Row → List String → Option (List Row)
  | [], _ => some []
  | r :: rs, seen =>
    match dedupKey r with
    | none => none
    | some key =>
      let h := MD5.md5hex key
      if h ∈ seen then dedupAux rs seen
      else (dedupAux rs (h :: seen)).map (r :: ·)

/-- The region condition tested by `classify_zone` in
`01_collect_data.py`. -/
def idfTest (region : String) : Bool :=
  strContains "France" region && (strContains "Ile" region || strContains "le-de" region)

end Collect

namespace Scrape

/-- The region condition tested by `classify_zone` in
`scrape_google_maps.py`. -/
def idfTest (region : String) : Bool := strContains "Ile-de-France" region

/-- Specification-side city loop: process every listed city, no skipping.
Used to state that the skip logic processes exactly the non-done units. -/
def runCitiesAll (oracle : String → CityOracle) (counter : Nat) :
    List (String × ℚ × ℚ) → List Row × Nat
  | [] => ([], counter)
  | (cityName, _, _) :: rest =>
    let (rows, c') := runCity (oracle cityName) cityName counter
    let (others, c'') := runCitiesAll oracle c' rest
    (rows ++ others, c'')

end Scrape

/-- The spec's record-completeness rating invariant: an integer rating
between 1 and 5. -/
def ratingOk : JVal → Prop
  | .num q => 1 ≤ q ∧ q ≤ 5 ∧ q.den = 1
  | _ => False

/-- The ten region labels the repository's region-derivation functions
(`_region` in `01_collect_data.py`, `guess_region` in
`scrape_google_maps.py`) can produce. -/
def allRegionValues : List String :=
  ["Ile-de-France", "Auvergne-Rhone-Alpes", "PACA", "Occitanie",
   "Nouvelle-Aquitaine", "Hauts-de-France", "Grand Est", "Bretagne",
   "Pays de la Loire", "France"]

/-!
### Concrete instances used by witnesses and counterexamples
-/
namespace Demo

/-- A review record: text `"same text"` at store `"A"`. -/
def rowA : Row := [("review_text", .str "same text"), ("store_name", .str "A")]

/-- Same text and store as `rowA`, with one extra field. -/
def rowA' : Row :=
  [("review_text", .str "same text"), ("store_name", .str "A"), ("extra", .str "x")]

/-- Same text as `rowA` at a different store `"B"`. -/
def rowB : Row := [("review_text", .str "same text"), ("store_name", .str "B")]

/-- An environment with only `GOOGLE_API_KEY` set. -/
def envGoogleOnly (gkey : String) : String → String :=
  fun k => if k = "GOOGLE_API_KEY" then gkey else ""

/-- A city oracle whose search feed renders but lists no stores. -/
def emptyCityOracle : Scrape.CityOracle :=
  { feed := .ok [], visit := fun _ => .error "unused" }

/-- A run in which every city search succeeds but finds no stores. -/
def zeroOracle : String → Scrape.CityOracle := fun _ => emptyCityOracle

/-- An Outscraper search payload with one matching store. -/
def pay9 : JVal := .obj [("data", .arr [.arr [.obj
  [("name", .str "Intersport Paris"),
   ("full_address", .str "1 Rue de Rivoli, 75001 Paris"),
   ("latitude", .num (mkRat 4886 100)), ("longitude", .num (mkRat 234 100)),
   ("place_id", .str "PID1")]]])]

/-- An Outscraper reviews payload with one complete review. -/
def payR : JVal := .obj [("data", .arr [.arr [.obj
  [("reviews_data", .arr [.obj
     [("review_text", .str "Tres bon magasin vraiment"),
      ("review_rating", .num 5),
      ("review_datetime_utc", .str "2024-01-01"),
      ("author_title", .str "Jean")]])]]])]

/-- An Outscraper reviews payload whose review has no `review_rating`. -/
def pay8 : JVal := .obj [("data", .arr [.arr [.obj
  [("reviews_data", .arr [.obj
     [("review_text", .str "0123456789abc")]])]]])]

/-- The review dict `get_reviews` builds from `payR`. -/
def revRow : Row :=
  [("review_text", .str "Tres bon magasin vraiment"), ("rating", .num 5),
   ("date", .str "2024-01-01"), ("reviewer_name", .str "Jean")]

/-- An Outscraper reviews payload whose review's `review_text` is a
list of ten elements — Python's `len()` accepts it, so the adapter
returns the review with a non-string text. -/
def payArrText : JVal := .obj [("data", .arr [.arr [.obj
  [("reviews_data", .arr [.obj
     [("review_text", .arr [.num 0, .num 1, .num 2, .num 3, .num 4,
                            .num 5, .num 6, .num 7, .num 8, .num 9])]])]]])]

/-- The review dict `get_reviews` builds from `payArrText`. -/
def arrTextRow : Row :=
  [("review_text", .arr [.num 0, .num 1, .num 2, .num 3, .num 4,
                         .num 5, .num 6, .num 7, .num 8, .num 9]),
   ("rating", .num 0), ("date", .str ""), ("reviewer_name", .str "Anonyme")]

/-- A persisted row naming `"Paris"` as its searched unit. -/
def rowParis : Row := [("search_city", .str "Paris")]

/-- Previous on-disk content: a complete two-line file. -/
def prevContent : List (List JVal) := Scrape.fileLines [rowParis]

/-- A rendered review card that parses completely. -/
def goodDiv : Scrape.DivO :=
  { reviewer := some "Jean", kvLabel := some "5 etoiles", ariaLabels := [],
    dateText := "2024-01-01", text := some "Tres bon accueil" }

/-- A successful store-page visit with one parsed review. -/
def goodVisit : Scrape.VisitO :=
  { name := "Intersport Paris", address := "1 Rue de Rivoli, 75001 Paris",
    lat := mkRat 4886 100, lng := mkRat 234 100, opened := true, divs := [goodDiv] }

/-- A store link as `find_stores` returns it. -/
def link1 : Scrape.FeedLink := { label := "Intersport Paris", href := "h1" }

/-- The review record the BeautifulSoup loop builds from `goodDiv`. -/
def scrapedRow : Row :=
  [("review_text", .str "Tres bon accueil"), ("rating", .num 5),
   ("date", .str "2024-01-01"), ("reviewer_name", .str "Jean")]

/-- A city oracle whose first store visit times out (not a session fault)
and whose remaining stores succeed. -/
def flakyOracle : Scrape.CityOracle :=
  { feed := .ok [{ label := "Intersport X", href := "h0" }, link1],
    visit := fun h => if h = "h1" then .ok goodVisit else .error "timeout" }

end Demo

/-!
## Claim theorems
-/

/-- C1 (code evaluated at the failing input): `main()` of
`01_collect_data.py` reads only `USE_SELENIUM` and `OUTSCRAPER_API_KEY`
from the environment.  In an environment whose only set variable is
`GOOGLE_API_KEY` — the credential the module docstring documents for the
official Google Places mode — the run persists the synthetic generator's
output: no official-API branch exists to be selected, contradicting the
claimed precedence order.  (The conclusion holds for every value of the
credential and of the other branch outcomes.) -/
theorem C1_google_key_alone_yields_simulated :
    ∀ (gkey : String) (importOk : Bool) (selCount outCount : Nat),
      Collect.effectiveSource (Demo.envGoogleOnly gkey) true importOk
          selCount outCount = Collect.SourceSel.simulated := by
  intro gkey importOk selCount outCount
  rfl

/-- C6: both zone classifiers are total pure functions: for every
(latitude, longitude, region label) triple the result is exactly one of
the three fixed labels (urban core "Paris Intra Muros", urban periphery
"Paris Extra Muros", provincial "Province"), never empty; when the
region test recognizes the metropolitan region (Île-de-France) the
result is the urban-core label inside the capital bounding box and the
urban-periphery label outside it, and any other region label yields the
provincial label. -/
theorem C6_zone_classifier_total :
    ∀ (lat lng : ℚ) (region : String),
      (Collect.classify_zone lat lng region = "Paris Intra Muros" ∨
        Collect.classify_zone lat lng region = "Paris Extra Muros" ∨
        Collect.classify_zone lat lng region = "Province") ∧
      Collect.classify_zone lat lng region ≠ "" ∧
      (Collect.idfTest region = true →
        Collect.classify_zone lat lng region =
          (if Collect.is_paris_intra lat lng then "Paris Intra Muros"
           else "Paris Extra Muros")) ∧
      (Collect.idfTest region = false →
        Collect.classify_zone lat lng region = "Province") ∧
      (Scrape.classify_zone lat lng region = "Paris Intra Muros" ∨
        Scrape.classify_zone lat lng region = "Paris Extra Muros" ∨
        Scrape.classify_zone lat lng region = "Province") ∧
      Scrape.classify_zone lat lng region ≠ "" ∧
      (Scrape.idfTest region = true →
        Scrape.classify_zone lat lng region =
          (if (decide (Scrape.PARIS_LAT.1 ≤ lat) && decide (lat ≤ Scrape.PARIS_LAT.2)) &&
              (decide (Scrape.PARIS_LNG.1 ≤ lng) && decide (lng ≤ Scrape.PARIS_LNG.2)) then
            "Paris Intra Muros" else "Paris Extra Muros")) ∧
      (Scrape.idfTest region = false →
        Scrape.classify_zone lat lng region = "Province") := by
  intro lat lng region
  have hC : Collect.classify_zone lat lng region =
      if Collect.idfTest region then
        (if Collect.is_paris_intra lat lng then "Paris Intra Muros"
         else "Paris Extra Muros")
      else "Province" := rfl
  have hS : Scrape.classify_zone lat lng region =
      if Scrape.idfTest region then
        (if (decide (Scrape.PARIS_LAT.1 ≤ lat) && decide (lat ≤ Scrape.PARIS_LAT.2)) &&
            (decide (Scrape.PARIS_LNG.1 ≤ lng) && decide (lng ≤ Scrape.PARIS_LNG.2)) then
          "Paris Intra Muros" else "Paris Extra Muros")
      else "Province" := rfl
  refine ⟨?_, ?_, fun h => by rw [hC, if_pos h], fun h => by rw [hC, if_neg (by simp [h])],
         ?_, ?_, fun h => by rw [hS, if_pos h], fun h => by rw [hS, if_neg (by simp [h])]⟩
  · rw [hC]; split
    · split
      · exact Or.inl rfl
      · exact Or.inr (Or.inl rfl)
    · exact Or.inr (Or.inr rfl)
  · rw [hC]; split
    · split <;> decide
    · decide
  · rw [hS]; split
    · split
      · exact Or.inl rfl
      · exact Or.inr (Or.inl rfl)
    · exact Or.inr (Or.inr rfl)
  · rw [hS]; split
    · split <;> decide
    · decide

/-- C6 witness: concrete evaluations through the theorem. -/
theorem C6_zone_classifier_total_witness :
    Collect.classify_zone (mkRat 4885 100) (mkRat 235 100) "Ile-de-France" = "Paris Intra Muros" ∧
    Scrape.classify_zone 0 0 "Bretagne" = "Province" :=
  ⟨((C6_zone_classifier_total (mkRat 4885 100) (mkRat 235 100) "Ile-de-France").2.2.1 rfl).trans (by rfl),
   (C6_zone_classifier_total 0 0 "Bretagne").2.2.2.2.2.2.2 rfl⟩

/-- C10 counterexample: on the region label `"Ile France"` (contains
`"France"` and `"Ile"` but not `"Ile-de-France"`) the two classifiers
disagree: `01_collect_data.py` yields "Paris Extra Muros",
`scrape_google_maps.py` yields "Province". -/
theorem C10_classifiers_disagree :
    Collect.classify_zone 0 0 "Ile France" ≠
      Scrape.classify_zone 0 0 "Ile France" := by
  decide

/-- The two classifiers agree on each of the ten derivable region
labels. -/
theorem classify_agree_on_table :
    ∀ v ∈ allRegionValues, ∀ (lat lng : ℚ),
      Collect.classify_zone lat lng v = Scrape.classify_zone lat lng v := by
  intro v hv lat lng
  fin_cases hv <;> rfl

/-- Every `_region` output is one of the ten labels. -/
theorem collect_region_mem (addr : String) :
    Collect.region addr ∈ allRegionValues := by
  unfold Collect.region
  cases h : Collect.regionTable.find? (fun kv => strContains kv.1 (pyLower addr)) with
  | none => decide
  | some kv =>
    have hmem := List.mem_of_find?_eq_some h
    have hall : ∀ p ∈ Collect.regionTable, p.2 ∈ allRegionValues := by decide
    exact hall kv hmem

/-- Every `guess_region` output is one of the ten labels. -/
theorem scrape_region_mem (text : String) :
    Scrape.guess_region text ∈ allRegionValues := by
  unfold Scrape.guess_region
  cases h : Scrape.regionTable.find? (fun kv => strContains kv.1 (pyLower text)) with
  | none => decide
  | some kv =>
    have hmem := List.mem_of_find?_eq_some h
    have hall : ∀ p ∈ Scrape.regionTable, p.2 ∈ allRegionValues := by decide
    exact hall kv hmem

/-- C10 amended: the two zone classifiers agree on every region label
actually produced by the repository's region-derivation functions
(`_region` of `01_collect_data.py` and `guess_region` of
`scrape_google_maps.py`), for every coordinate; they differ only on
region strings neither function can produce (such as `"Ile France"`). -/
theorem C10_agree_on_derived_regions :
    ∀ (lat lng : ℚ) (addr text : String),
      Collect.classify_zone lat lng (Collect.region addr) =
        Scrape.classify_zone lat lng (Collect.region addr) ∧
      Collect.classify_zone lat lng (Scrape.guess_region text) =
        Scrape.classify_zone lat lng (Scrape.guess_region text) := by
  intro lat lng addr text
  exact ⟨classify_agree_on_table _ (collect_region_mem addr) lat lng,
         classify_agree_on_table _ (scrape_region_mem text) lat lng⟩

/-- C2 amended: a work unit is in the resume done-set if and only if the
persisted output contains at least one record whose `search_city` field
names it, and the city loop processes exactly the units not in the set
(each done unit is skipped entirely, each other unit is processed).  A
unit searched with zero results leaves no record naming it, hence — by
the if-and-only-if — it is not done: it is re-searched on restart. -/
theorem C2_done_iff_record_and_skip :
    (∀ (rows : List Row) (u : String),
        JVal.str u ∈ Scrape.doneOf rows ↔
          ∃ r ∈ rows, Row.lookup r "search_city" = some (.str u)) ∧
    (∀ (oracle : String → Scrape.CityOracle) (done : List JVal)
        (counter : Nat) (cities : List (String × ℚ × ℚ)),
        Scrape.runCities oracle done counter cities =
          Scrape.runCitiesAll oracle counter
            (cities.filter fun c => !(Scrape.isDone done c.1))) := by
  constructor
  · intro rows u
    unfold Scrape.doneOf
    simp [List.mem_filterMap]
  · intro oracle done counter cities
    induction cities generalizing counter with
    | nil => rfl
    | cons c rest ih =>
      obtain ⟨cityName, la, ln⟩ := c
      by_cases hd : Scrape.isDone done cityName
      · simp [Scrape.runCities, Scrape.runCitiesAll, hd, ih]
      · simp only [Scrape.runCities, Scrape.runCitiesAll, hd, List.filter,
          Bool.not_false, if_neg, ih]
        simp [hd, Scrape.runCitiesAll]

/-- C2 counterexample: a fresh run in which every city search succeeds
but finds no stores searches every unit (including "Lille") and persists
no record; on restart the done set is empty, so "Lille" — searched with
zero results — is processed again: it is treated as pending, not done,
contradicting the claim's parenthetical. -/
theorem C2_zero_results_unit_is_pending :
    "Lille" ∈ Scrape.processedCities [] ∧
    Scrape.runMain none Demo.zeroOracle = [] ∧
    "Lille" ∈ Scrape.processedCities
        (Scrape.doneOf (Scrape.runMain none Demo.zeroOracle)) := by
  exact ⟨by decide, rfl, by decide⟩

/-- Interrupting `save_all` after the truncating `open` and before any
write leaves an empty file. -/
theorem saveStates_nil_mem (prev : List (List JVal)) (reviews : List Row)
    (h : reviews ≠ []) : [] ∈ Scrape.saveStates prev reviews := by
  unfold Scrape.saveStates
  rw [if_neg (by simpa using h)]
  exact List.mem_cons_of_mem _ (List.mem_map.mpr ⟨0, by simp, rfl⟩)

/-- C3 amended: `save_all` performs a full rewrite by opening the
destination itself in truncating write mode — no temporary file, no
atomic replace — so an interrupted save leaves either the previous
content (not yet opened) or some prefix of the new content, and the
empty (fully truncated) file is among the reachable states whenever the
batch is nonempty; an empty batch leaves the file untouched. -/
theorem C3_save_truncates_in_place :
    ∀ (prev : List (List JVal)) (reviews : List Row),
      (∀ s ∈ Scrape.saveStates prev reviews,
          s = prev ∨ s <+: Scrape.fileLines reviews) ∧
      (reviews ≠ [] → [] ∈ Scrape.saveStates prev reviews) ∧
      Scrape.save_all prev [] = prev := by
  intro prev reviews
  refine ⟨?_, saveStates_nil_mem prev reviews, rfl⟩
  intro s hs
  unfold Scrape.saveStates at hs
  by_cases h : reviews.isEmpty
  · rw [if_pos h] at hs
    left
    simpa using hs
  · rw [if_neg h] at hs
    rcases List.mem_cons.mp hs with rfl | hmem
    · exact Or.inl rfl
    · rcases List.mem_map.mp hmem with ⟨k, _, rfl⟩
      exact Or.inr <| List.take_prefix k _

/-- C3 witness: the theorem applied to a concrete previous file and a
concrete one-review batch. -/
theorem C3_save_truncates_in_place_witness :
    [] ∈ Scrape.saveStates Demo.prevContent [Demo.rowParis] ∧
    ([] = Demo.prevContent ∨ [] <+: Scrape.fileLines [Demo.rowParis]) :=
  ⟨(C3_save_truncates_in_place Demo.prevContent [Demo.rowParis]).2.1 (by simp),
   (C3_save_truncates_in_place Demo.prevContent [Demo.rowParis]).1 []
     ((C3_save_truncates_in_place Demo.prevContent [Demo.rowParis]).2.1 (by simp))⟩

/-- C3 counterexample: with nonempty previous content and a nonempty
batch, the truncated empty file is a reachable interruption state that is
neither the previous complete content nor the new complete content —
`save_all` is not an atomic temp-and-replace. -/
theorem C3_truncated_state_reachable :
    [] ∈ Scrape.saveStates Demo.prevContent [Demo.rowParis] ∧
    ([] : List (List JVal)) ≠ Demo.prevContent ∧
    ([] : List (List JVal)) ≠ Scrape.save_all Demo.prevContent [Demo.rowParis] := by
  refine ⟨saveStates_nil_mem _ _ (by simp), ?_, ?_⟩
  · intro h
    have := congrArg List.length h
    simp [Demo.prevContent, Scrape.fileLines] at this
  · intro h
    have := congrArg List.length h
    simp [Scrape.save_all, Demo.prevContent, Scrape.fileLines] at this

/-- C7 counterexample: in the browser-automation adapter a session
failure raised by `driver.get` inside `fetch_reviews` is not converted
into an empty result — it propagates past the adapter boundary to the
orchestrator. -/
theorem C7_driver_failure_propagates :
    Scrape.scrape_reviews (.error "invalid session id") =
      .error "invalid session id" := rfl

/-- C7 amended: the remote-API adapter converts every raised call into an
empty result inside `find_stores`/`get_reviews`; the browser-automation
adapter's `find_stores`/`scrape_reviews` let driver failures escape, and
the orchestrator catches them — a non-session store failure skips only
that store, a session failure aborts only the current unit's remaining
stores, and a unit-level failure leaves the processing of the other
units unchanged — so no such failure aborts a multi-unit run. -/
theorem C7_failure_isolation :
    (∀ e : String,
        Collect.find_stores (.error e) = [] ∧ Collect.get_reviews (.error e) = []) ∧
    (∀ e : String,
        Scrape.find_stores (.error e) = .error e ∧
        Scrape.scrape_reviews (.error e) = .error e) ∧
    (∀ (o : Scrape.CityOracle) (city : String) (c : Nat)
        (link : Scrape.FeedLink) (rest : List Scrape.FeedLink) (m : String),
        o.visit link.href = .error m →
          (Scrape.sessionErr m = false →
            Scrape.storeLoop o city c (link :: rest) = Scrape.storeLoop o city c rest) ∧
          (Scrape.sessionErr m = true →
            Scrape.storeLoop o city c (link :: rest) = ([], c))) ∧
    (∀ (oracle : String → Scrape.CityOracle) (done : List JVal) (c : Nat)
        (cityName : String) (la ln : ℚ) (rest : List (String × ℚ × ℚ)) (m : String),
        (oracle cityName).feed = .error m →
          Scrape.runCities oracle done c ((cityName, la, ln) :: rest) =
            Scrape.runCities oracle done c rest) := by
  refine ⟨fun e => ⟨rfl, rfl⟩, fun e => ⟨rfl, rfl⟩, ?_, ?_⟩
  · intro o city c link rest m hv
    constructor
    · intro hm
      simp [Scrape.storeLoop, hv, Scrape.scrape_reviews, hm]
    · intro hm
      simp [Scrape.storeLoop, hv, Scrape.scrape_reviews, hm]
  · intro oracle done c cityName la ln rest m hf
    by_cases hd : Scrape.isDone done cityName
    · simp [Scrape.runCities, hd]
    · simp [Scrape.runCities, hd, Scrape.runCity, Scrape.find_stores, hf]

/-- C7 witness: the theorem applied to a concrete oracle whose first
store visit times out. -/
theorem C7_failure_isolation_witness :
    Scrape.storeLoop Demo.flakyOracle "Paris" 0
        [{ label := "Intersport X", href := "h0" }, Demo.link1] =
      Scrape.storeLoop Demo.flakyOracle "Paris" 0 [Demo.link1] ∧
    Collect.find_stores (.error "timeout") = [] :=
  ⟨(C7_failure_isolation.2.2.1 Demo.flakyOracle "Paris" 0
      { label := "Intersport X", href := "h0" } [Demo.link1] "timeout" rfl).1 rfl,
   (C7_failure_isolation.1 "timeout").1⟩

/-- C9 (code evaluated at the failing input): a remote-API (Outscraper)
run persists records with no `review_id` field at all — `main()` assigns
identifiers only in the Selenium branch, and neither `get_reviews` nor
`scrape_area` adds one — contradicting the claim that every persisted
review of every adapter carries a generated `REV-xxxxx` identifier. -/
theorem C9_outscraper_rows_lack_review_id :
    (Collect.scrape_area (.ok Demo.pay9) (fun _ => .ok Demo.payR)).map
        (fun rows => rows.map fun r => Row.lookup r "review_id") = some [none] ∧
    (Collect.scrape_area (.ok Demo.pay9) (fun _ => .ok Demo.payR)).map
        List.length = some 1 :=
  ⟨rfl, rfl⟩

/-- C8 counterexample: the remote-API adapter persists
`rev.get("review_rating", 0)` without validation, so a review whose
payload lacks `review_rating` is persisted with rating `0` — outside the
claimed 1–5 range. -/
theorem C8_rating_zero_persisted :
    (Collect.get_reviews (.ok Demo.pay8)).map (fun r => Row.lookup r "rating") =
      [some (JVal.num 0)] ∧
    ¬ ratingOk (JVal.num 0) := by
  refine ⟨rfl, ?_⟩
  simp [ratingOk]

theorem dedupAux_cons_none (r : Row) (rs : List Row) (seen : List String)
    (hk : Collect.dedupKey r = none) :
    Collect.dedupAux (r :: rs) seen = none := by
  simp [Collect.dedupAux, hk]

theorem dedupAux_cons_mem (r : Row) (rs : List Row) (seen : List String) (key : String)
    (hk : Collect.dedupKey r = some key) (hm : MD5.md5hex key ∈ seen) :
    Collect.dedupAux (r :: rs) seen = Collect.dedupAux rs seen := by
  simp [Collect.dedupAux, hk, hm]

theorem dedupAux_cons_new (r : Row) (rs : List Row) (seen : List String) (key : String)
    (hk : Collect.dedupKey r = some key) (hm : MD5.md5hex key ∉ seen) :
    Collect.dedupAux (r :: rs) seen =
      (Collect.dedupAux rs (MD5.md5hex key :: seen)).map (r :: ·) := by
  simp [Collect.dedupAux, hk, hm]

theorem dedupGo_eq (rs : List Row) :
    ∀ (seen : List String) (out : List Row),
      Collect.dedupGo rs seen out = (Collect.dedupAux rs seen).map (out ++ ·) := by
  induction rs with
  | nil => intro seen out; simp [Collect.dedupGo, Collect.dedupAux]
  | cons r rs ih =>
    intro seen out
    cases hk : Collect.dedupKey r with
    | none => simp [Collect.dedupGo, Collect.dedupAux, hk]
    | some key =>
      by_cases hm : MD5.md5hex key ∈ seen
      · rw [dedupAux_cons_mem r rs seen key hk hm]
        simp [Collect.dedupGo, hk, hm, ih]
      · rw [dedupAux_cons_new r rs seen key hk hm]
        simp only [Collect.dedupGo, hk, hm, if_neg, ih]
        cases Collect.dedupAux rs (MD5.md5hex key :: seen) with
        | none => simp
        | some l => simp

theorem dedupAux_isSome (l : List Row) :
    ∀ seen, (∀ r ∈ l, (Collect.dedupKey r).isSome) →
      (Collect.dedupAux l seen).isSome := by
  induction l with
  | nil => intro seen _; simp [Collect.dedupAux]
  | cons r rs ih =>
    intro seen hwf
    have hr := hwf r (List.mem_cons_self r rs)
    have hrest : ∀ x ∈ rs, (Collect.dedupKey x).isSome :=
      fun x hx => hwf x (List.mem_cons_of_mem _ hx)
    cases hk : Collect.dedupKey r with
    | none => rw [hk] at hr; simp at hr
    | some key =>
      by_cases hm : MD5.md5hex key ∈ seen
      · rw [dedupAux_cons_mem r rs seen key hk hm]
        exact ih seen hrest
      · rw [dedupAux_cons_new r rs seen key hk hm]
        simpa using ih (MD5.md5hex key :: seen) hrest

theorem find?_cons_pos' {α : Type} (p : α → Bool) (a : α) (l : List α)
    (h : p a = true) : List.find? p (a :: l) = some a :=
  List.find?_cons_of_pos l h

theorem find?_cons_neg' {α : Type} (p : α → Bool) (a : α) (l : List α)
    (h : p a = false) : List.find? p (a :: l) = List.find? p l :=
  List.find?_cons_of_neg l (by simp [h])

theorem fingerprint_of_key (r : Row) (key : String)
    (hk : Collect.dedupKey r = some key) :
    Collect.fingerprint r = some (MD5.md5hex key) := by
  simp [Collect.fingerprint, hk]

theorem dedupAux_spec (l : List Row) :
    ∀ (seen : List String) (out : List Row),
      Collect.dedupAux l seen = some out →
      out.Sublist l ∧
      (∀ q ∈ out, ∃ h, Collect.fingerprint q = some h ∧ h ∉ seen) ∧
      out.Pairwise (fun a b => Collect.fingerprint a ≠ Collect.fingerprint b) ∧
      (∀ q ∈ out,
        l.find? (fun x => Collect.fingerprint x == Collect.fingerprint q) = some q) ∧
      (∀ r ∈ l, ∀ h, Collect.fingerprint r = some h → h ∉ seen →
        ∃ q ∈ out, Collect.fingerprint q = some h) := by
  induction l with
  | nil =>
    intro seen out hout
    simp [Collect.dedupAux] at hout
    subst hout
    simp
  | cons r rs ih =>
    intro seen out hout
    cases hk : Collect.dedupKey r with
    | none => rw [dedupAux_cons_none r rs seen hk] at hout; cases hout
    | some key =>
      have hfr := fingerprint_of_key r key hk
      by_cases hm : MD5.md5hex key ∈ seen
      · rw [dedupAux_cons_mem r rs seen key hk hm] at hout
        obtain ⟨hsub, hfresh, hpw, hfind, hcov⟩ := ih seen out hout
        refine ⟨hsub.cons _, hfresh, hpw, ?_, ?_⟩
        · intro q hq
          obtain ⟨h', hfq, hnot⟩ := hfresh q hq
          have hne : (Collect.fingerprint r == Collect.fingerprint q) = false := by
            rw [hfr, hfq]
            simp only [beq_eq_false_iff_ne, ne_eq, Option.some.injEq]
            intro he
            exact hnot (he ▸ hm)
          rw [find?_cons_neg'
            (fun x => Collect.fingerprint x == Collect.fingerprint q) r rs hne]
          exact hfind q hq
        · intro x hx h hfx hnot
          rcases List.mem_cons.mp hx with he | hx'
          · rw [he, hfr] at hfx
            injection hfx with he'
            exact absurd (he' ▸ hm) hnot
          · exact hcov x hx' h hfx hnot
      · rw [dedupAux_cons_new r rs seen key hk hm] at hout
        cases hrec : Collect.dedupAux rs (MD5.md5hex key :: seen) with
        | none => rw [hrec] at hout; cases hout
        | some out' =>
          rw [hrec] at hout
          simp only [Option.map_some'] at hout
          injection hout with hout
          subst hout
          obtain ⟨hsub, hfresh, hpw, hfind, hcov⟩ :=
            ih (MD5.md5hex key :: seen) out' hrec
          refine ⟨hsub.cons₂ r, ?_, ?_, ?_, ?_⟩
          · intro q hq
            rcases List.mem_cons.mp hq with rfl | hq'
            · exact ⟨MD5.md5hex key, hfr, hm⟩
            · obtain ⟨h', hfq, hnot⟩ := hfresh q hq'
              exact ⟨h', hfq, fun hin => hnot (List.mem_cons_of_mem _ hin)⟩
          · refine List.Pairwise.cons ?_ hpw
            intro q hq'
            obtain ⟨h', hfq, hnot⟩ := hfresh q hq'
            rw [hfr, hfq]
            intro he
            injection he with he'
            exact hnot (he' ▸ List.mem_cons_self _ _)
          · intro q hq
            rcases List.mem_cons.mp hq with he | hq'
            · subst he
              have hp : (Collect.fingerprint q == Collect.fingerprint q) = true := by simp
              exact find?_cons_pos'
                (fun x => Collect.fingerprint x == Collect.fingerprint q) q rs hp
            · obtain ⟨h', hfq, hnot⟩ := hfresh q hq'
              have hne : (Collect.fingerprint r == Collect.fingerprint q) = false := by
                rw [hfr, hfq]
                simp only [beq_eq_false_iff_ne, ne_eq, Option.some.injEq]
                intro he
                exact hnot (he ▸ List.mem_cons_self _ _)
              rw [find?_cons_neg'
                (fun x => Collect.fingerprint x == Collect.fingerprint q) r rs hne]
              exact hfind q hq'
          · intro x hx h hfx hnot
            rcases List.mem_cons.mp hx with he | hx'
            · rw [he, hfr] at hfx
              injection hfx with he'
              exact ⟨r, List.mem_cons_self _ _, by rw [hfr, he']⟩
            · by_cases hh : h = MD5.md5hex key
              · subst hh
                exact ⟨r, List.mem_cons_self _ _, hfr⟩
              · have hnot' : h ∉ MD5.md5hex key :: seen := by
                  intro hin
                  rcases List.mem_cons.mp hin with h1 | h2
                  exacts [hh h1, hnot h2]
                obtain ⟨q, hq, hfq⟩ := hcov x hx' h hfx hnot'
                exact ⟨q, List.mem_cons_of_mem _ hq, hfq⟩

theorem dedup_spec_of_wf (l : List Row)
    (hwf : ∀ r ∈ l, (Collect.dedupKey r).isSome) :
    ∃ out, Collect.dedup l = some out ∧
      out.Sublist l ∧
      out.Pairwise (fun a b => Collect.fingerprint a ≠ Collect.fingerprint b) ∧
      (∀ q ∈ out,
        l.find? (fun x => Collect.fingerprint x == Collect.fingerprint q) = some q) ∧
      (∀ r ∈ l, ∃ q ∈ out, Collect.fingerprint q = Collect.fingerprint r) := by
  have h1 : Collect.dedup l = Collect.dedupAux l [] := by
    unfold Collect.dedup
    rw [dedupGo_eq]
    cases Collect.dedupAux l [] <;> simp
  have h2 := dedupAux_isSome l [] hwf
  cases ho : Collect.dedupAux l [] with
  | none => rw [ho] at h2; simp at h2
  | some out =>
    obtain ⟨hsub, hfresh, hpw, hfind, hcov⟩ := dedupAux_spec l [] out ho
    refine ⟨out, h1.trans ho, hsub, hpw, hfind, ?_⟩
    intro r hr
    have hk := hwf r hr
    cases hfk : Collect.fingerprint r with
    | none =>
      unfold Collect.fingerprint at hfk
      cases hkk : Collect.dedupKey r with
      | none => rw [hkk] at hk; simp at hk
      | some key => rw [hkk] at hfk; simp at hfk
    | some h =>
      obtain ⟨q, hq, hfq⟩ := hcov r hr h hfk (by simp)
      exact ⟨q, hq, hfq⟩

/-- C4: for every batch of records with string text/store fields, the
deduplicator returns exactly the subsequence of first-seen records per
fingerprint — where the fingerprint is the MD5 digest of
`text + "|" + store_name` — i.e. the output is an order-preserving
subsequence of the input, no two kept records share a fingerprint, every
kept record is the first record of the batch bearing its fingerprint,
and every input record has a kept representative with its
fingerprint. -/
theorem C4_dedup_first_seen_per_fingerprint :
    ∀ l : List Row, (∀ r ∈ l, (Collect.dedupKey r).isSome) →
      ∃ out, Collect.dedup l = some out ∧
        out.Sublist l ∧
        out.Pairwise (fun a b => Collect.fingerprint a ≠ Collect.fingerprint b) ∧
        (∀ q ∈ out,
          l.find? (fun x => Collect.fingerprint x == Collect.fingerprint q) = some q) ∧
        (∀ r ∈ l, ∃ q ∈ out, Collect.fingerprint q = Collect.fingerprint r) :=
  fun l hwf => dedup_spec_of_wf l hwf

/-- C4 witness: the theorem applied to a concrete three-record batch
(one exact duplicate, one cross-store duplicate). -/
theorem C4_dedup_first_seen_per_fingerprint_witness :
    ∃ out, Collect.dedup [Demo.rowA, Demo.rowA', Demo.rowB] = some out ∧
      out.Sublist [Demo.rowA, Demo.rowA', Demo.rowB] ∧
      out.Pairwise (fun a b => Collect.fingerprint a ≠ Collect.fingerprint b) ∧
      (∀ q ∈ out,
        [Demo.rowA, Demo.rowA', Demo.rowB].find?
          (fun x => Collect.fingerprint x == Collect.fingerprint q) = some q) ∧
      (∀ r ∈ [Demo.rowA, Demo.rowA', Demo.rowB],
        ∃ q ∈ out, Collect.fingerprint q = Collect.fingerprint r) :=
  C4_dedup_first_seen_per_fingerprint [Demo.rowA, Demo.rowA', Demo.rowB] (by decide)

/-- C5 counterexample: in the batch `[rowA, rowA', rowB]`, the records
`rowA'` and `rowB` have identical review text and different store names,
yet `rowA'` is not kept: it is dropped as a duplicate of the earlier
`rowA` (same text and store, one extra field).  So "for every input
batch ... the Deduplicator keeps both records" fails as stated. -/
theorem C5_cross_store_pair_not_always_kept :
    ¬ (∀ (l : List Row) (a b : Row), a ∈ l → b ∈ l →
        a.getD "review_text" (.str "") = b.getD "review_text" (.str "") →
        a.getD "store_name" (.str "") ≠ b.getD "store_name" (.str "") →
        ∀ out, Collect.dedup l = some out → a ∈ out ∧ b ∈ out) := by
  intro hclaim
  have hded : Collect.dedup [Demo.rowA, Demo.rowA', Demo.rowB] =
      some [Demo.rowA, Demo.rowB] := by rfl
  have h := hclaim [Demo.rowA, Demo.rowA', Demo.rowB] Demo.rowA' Demo.rowB
    (List.mem_cons_of_mem _ (List.mem_cons_self _ _))
    (List.mem_cons_of_mem _ (List.mem_cons_of_mem _ (List.mem_cons_self _ _)))
    rfl
    (by intro he; injection he with he'; exact absurd he' (by decide))
    [Demo.rowA, Demo.rowB] hded
  rcases List.mem_cons.mp h.1 with he | he
  · have := congrArg List.length he
    simp [Demo.rowA', Demo.rowA] at this
  · rcases List.mem_cons.mp he with he' | he'
    · have := congrArg List.length he'
      simp [Demo.rowA', Demo.rowB] at this
    · cases he'

/-- C5 amended: two records with identical review text and different
store names are both kept whenever each is the first record of the batch
bearing its own fingerprint — deduplication only ever drops a record in
favour of an earlier record with the same MD5 fingerprint of
`text + "|" + store_name`, and the two keys always differ when the store
names differ, so only an exact earlier duplicate (or an MD5 collision)
can drop either record. -/
theorem C5_cross_store_kept_when_first_seen :
    ∀ (l : List Row) (a b : Row),
      (∀ r ∈ l, (Collect.dedupKey r).isSome) →
      a ∈ l → b ∈ l →
      a.getD "review_text" (.str "") = b.getD "review_text" (.str "") →
      a.getD "store_name" (.str "") ≠ b.getD "store_name" (.str "") →
      l.find? (fun x => Collect.fingerprint x == Collect.fingerprint a) = some a →
      l.find? (fun x => Collect.fingerprint x == Collect.fingerprint b) = some b →
      ∃ out, Collect.dedup l = some out ∧ a ∈ out ∧ b ∈ out := by
  intro l a b hwf ha hb _ _ hfa hfb
  obtain ⟨out, hded, hsub, hpw, hfind, hcov⟩ := dedup_spec_of_wf l hwf
  refine ⟨out, hded, ?_, ?_⟩
  · obtain ⟨q, hq, hfq⟩ := hcov a ha
    have hq' := hfind q hq
    rw [hfq] at hq'
    rw [hfa] at hq'
    injection hq' with hq''
    exact hq'' ▸ hq
  · obtain ⟨q, hq, hfq⟩ := hcov b hb
    have hq' := hfind q hq
    rw [hfq] at hq'
    rw [hfb] at hq'
    injection hq' with hq''
    exact hq'' ▸ hq

/-- C5 witness: the theorem applied to a concrete two-record batch with
identical text at two stores. -/
theorem C5_cross_store_kept_when_first_seen_witness :
    ∃ out, Collect.dedup [Demo.rowA, Demo.rowB] = some out ∧
      Demo.rowA ∈ out ∧ Demo.rowB ∈ out :=
  C5_cross_store_kept_when_first_seen [Demo.rowA, Demo.rowB] Demo.rowA Demo.rowB
    (by decide)
    (List.mem_cons_self _ _)
    (List.mem_cons_of_mem _ (List.mem_cons_self _ _))
    rfl
    (by intro he; injection he with he'; exact absurd he' (by decide))
    (by rfl) (by rfl)

theorem mkReview_text (kvs : List (String × JVal)) (v : JVal) :
    Row.lookup (Collect.mkReview kvs v) "review_text" = some v := rfl

theorem revsOfList_text (l : List JVal) :
    ∀ rows, Collect.revsOfList l = some rows →
      ∀ r ∈ rows, ∃ v n, Row.lookup r "review_text" = some v ∧
        Collect.jlen v = some n ∧ 10 ≤ n := by
  induction l with
  | nil =>
    intro rows h r hr
    simp [Collect.revsOfList] at h
    subst h
    cases hr
  | cons j rest ih =>
    intro rows h r hr
    cases j with
    | obj kvs =>
      simp only [Collect.revsOfList] at h
      cases hrest : Collect.revsOfList rest with
      | none => rw [hrest] at h; simp at h
      | some others =>
        rw [hrest] at h
        simp only [Option.bind_eq_bind, Option.some_bind] at h
        replace h : (match Collect.jlen (Row.getD kvs "review_text" (JVal.str "")) with
            | some n =>
              if n < 10 then (some others : Option (List Row))
              else some (Collect.mkReview kvs (Row.getD kvs "review_text" (JVal.str "")) :: others)
            | none => none) = some rows := h
        cases hjl : Collect.jlen (Row.getD kvs "review_text" (JVal.str "")) with
        | none => rw [hjl] at h; cases h
        | some n =>
          rw [hjl] at h
          replace h : (if n < 10 then (some others : Option (List Row))
              else some (Collect.mkReview kvs
                (Row.getD kvs "review_text" (JVal.str "")) :: others)) = some rows := h
          by_cases hlen : n < 10
          · rw [if_pos hlen] at h
            injection h with h
            subst h
            exact ih others hrest r hr
          · rw [if_neg hlen] at h
            injection h with h
            subst h
            rcases List.mem_cons.mp hr with he | hr'
            · subst he
              exact ⟨Row.getD kvs "review_text" (JVal.str ""), n,
                mkReview_text kvs _, hjl, by omega⟩
            · exact ih others hrest r hr'
    | null => cases h
    | bool b => cases h
    | num q => cases h
    | str s => cases h
    | arr xs => cases h

theorem digit_char_bounds (c : Char) (h : c.isDigit = true) :
    c.toNat - 48 ≤ 9 := by
  simp only [Char.isDigit, Bool.and_eq_true, decide_eq_true_eq, ge_iff_le] at h
  obtain ⟨h1, h2⟩ := h
  have e2 : c.val.toNat ≤ 57 := h2
  have e3 : c.toNat = c.val.toNat := rfl
  omega

theorem firstDigit_le (s : String) (n : Nat) (h : Scrape.firstDigit s = some n) :
    n ≤ 9 := by
  unfold Scrape.firstDigit at h
  cases hf : s.data.find? Char.isDigit with
  | none => rw [hf] at h; cases h
  | some c =>
    rw [hf] at h
    injection h with h
    have hc := List.find?_some hf
    exact h ▸ digit_char_bounds c hc

theorem digitKeyword_le (l : List Char) :
    ∀ n, Scrape.digitKeyword l = some n → n ≤ 9 := by
  induction l with
  | nil => intro n h; cases h
  | cons c rest ih =>
    intro n h
    unfold Scrape.digitKeyword at h
    by_cases hc : (c.isDigit && Scrape.startsKeyword (rest.dropWhile Char.isWhitespace)) = true
    · rw [if_pos hc] at h
      injection h with h
      obtain ⟨h1, _⟩ := Bool.and_eq_true _ _ |>.mp hc
      exact h ▸ digit_char_bounds c h1
    · rw [if_neg hc] at h
      exact ih n h

theorem extractRating_le (d : Scrape.DivO) : Scrape.extractRating d ≤ 9 := by
  unfold Scrape.extractRating
  cases hk : d.kvLabel with
  | none =>
    simp only []
    cases hf : d.ariaLabels.findSome? (fun l => Scrape.digitKeyword (pyLower l).data) with
    | none => simp
    | some n =>
      simp only [if_pos rfl]
      obtain ⟨l, _, hl⟩ := List.exists_of_findSome?_eq_some hf
      simpa using digitKeyword_le (pyLower l).data n hl
  | some lab =>
    simp only []
    cases hfd : Scrape.firstDigit lab with
    | none =>
      simp only [Option.getD_none]
      cases hf : d.ariaLabels.findSome? (fun l => Scrape.digitKeyword (pyLower l).data) with
      | none => simp
      | some n =>
        simp only [if_pos rfl]
        obtain ⟨l, _, hl⟩ := List.exists_of_findSome?_eq_some hf
        simpa using digitKeyword_le (pyLower l).data n hl
    | some n =>
      simp only [Option.getD_some]
      by_cases hz : n = 0
      · subst hz
        simp only [if_pos rfl]
        cases hf : d.ariaLabels.findSome? (fun l => Scrape.digitKeyword (pyLower l).data) with
        | none => simp
        | some m =>
          obtain ⟨l, _, hl⟩ := List.exists_of_findSome?_eq_some hf
          simpa using digitKeyword_le (pyLower l).data m hl
      · rw [if_neg hz]
        exact firstDigit_le lab n hfd

theorem parseDiv_shape (d : Scrape.DivO) (r : Row) (h : Scrape.parseDiv d = some r) :
    ∃ (t : String) (n : ℕ), Row.lookup r "review_text" = some (.str t) ∧ 5 ≤ t.length ∧ t ≠ "" ∧
      Row.lookup r "rating" = some (.num (n : ℚ)) ∧ 1 ≤ n ∧ n ≤ 9 := by
  unfold Scrape.parseDiv at h
  replace h : (if (d.text.getD "" != "" && decide (5 ≤ (d.text.getD "").length) &&
      decide (0 < Scrape.extractRating d)) = true then
      some ([("review_text", JVal.str (d.text.getD "")),
             ("rating", JVal.num (Scrape.extractRating d)),
             ("date", JVal.str d.dateText),
             ("reviewer_name", JVal.str (d.reviewer.getD "Anonyme"))] : Row)
    else none) = some r := h
  split at h
  · next hc =>
    injection h with h
    subst h
    obtain ⟨hc1, hc3⟩ := Bool.and_eq_true _ _ |>.mp hc
    obtain ⟨hne, hlen⟩ := Bool.and_eq_true _ _ |>.mp hc1
    refine ⟨d.text.getD "", Scrape.extractRating d, rfl, of_decide_eq_true hlen,
      by simpa using hne, rfl, ?_, extractRating_le d⟩
    have := of_decide_eq_true hc3
    omega
  · cases h

theorem scrape_reviews_shape (nav : Except String Scrape.VisitO)
    (nm ad : String) (la ln : ℚ) (revs : List Row)
    (h : Scrape.scrape_reviews nav = .ok (nm, ad, la, ln, revs)) :
    ∀ r ∈ revs, ∃ (t : String) (n : ℕ), Row.lookup r "review_text" = some (.str t) ∧
      5 ≤ t.length ∧ t ≠ "" ∧ Row.lookup r "rating" = some (.num (n : ℚ)) ∧
      1 ≤ n ∧ n ≤ 9 := by
  cases nav with
  | error e => cases h
  | ok v =>
    unfold Scrape.scrape_reviews at h
    replace h : (if v.opened = true then
        Except.ok (v.name, v.address, v.lat, v.lng, v.divs.filterMap Scrape.parseDiv)
      else Except.ok (v.name, v.address, v.lat, v.lng, ([] : List Row))) =
        (Except.ok (nm, ad, la, ln, revs) : Except String _) := h
    by_cases ho : v.opened = true
    · rw [if_pos ho] at h
      injection h with h
      simp only [Prod.mk.injEq] at h
      obtain ⟨-, -, -, -, hrev⟩ := h
      intro r hr
      rw [← hrev] at hr
      obtain ⟨d, _, hpd⟩ := List.mem_filterMap.mp hr
      exact parseDiv_shape d r hpd
    · rw [if_neg ho] at h
      injection h with h
      simp only [Prod.mk.injEq] at h
      obtain ⟨-, -, -, -, hrev⟩ := h
      intro r hr
      rw [← hrev] at hr
      cases hr

theorem revsOfItems_text (l : List JVal) :
    ∀ rows, Collect.revsOfItems l = some rows →
      ∀ r ∈ rows, ∃ v n, Row.lookup r "review_text" = some v ∧
        Collect.jlen v = some n ∧ 10 ≤ n := by
  induction l with
  | nil =>
    intro rows h r hr
    simp [Collect.revsOfItems] at h
    subst h
    cases hr
  | cons j rest ih =>
    intro rows h r hr
    cases j with
    | obj kvs =>
      simp only [Collect.revsOfItems] at h
      cases hit : Collect.asIterList (Row.getD kvs "reviews_data" (.arr [])) with
      | none => rw [hit] at h; simp at h
      | some inner =>
        rw [hit] at h
        simp only [Option.bind_eq_bind, Option.some_bind] at h
        cases hhere : Collect.revsOfList inner with
        | none => rw [hhere] at h; simp at h
        | some here =>
          rw [hhere] at h
          simp only [Option.some_bind] at h
          cases hothers : Collect.revsOfItems rest with
          | none => rw [hothers] at h; simp at h
          | some others =>
            rw [hothers] at h
            simp only [Option.some_bind] at h
            replace h : some (here ++ others) = some rows := h
            injection h with h
            subst h
            rcases List.mem_append.mp hr with hr' | hr'
            · exact revsOfList_text inner here hhere r hr'
            · exact ih others hothers r hr'
    | null => exact ih rows h r hr
    | bool b => exact ih rows h r hr
    | num q => exact ih rows h r hr
    | str s => exact ih rows h r hr
    | arr xs => exact ih rows h r hr

theorem revsOfData_text (l : List JVal) :
    ∀ rows, Collect.revsOfData l = some rows →
      ∀ r ∈ rows, ∃ v n, Row.lookup r "review_text" = some v ∧
        Collect.jlen v = some n ∧ 10 ≤ n := by
  induction l with
  | nil =>
    intro rows h r hr
    simp [Collect.revsOfData] at h
    subst h
    cases hr
  | cons place rest ih =>
    intro rows h r hr
    simp only [Collect.revsOfData] at h
    generalize hitems : (match place with | JVal.arr xs => xs | x => [x]) = items at h
    cases h1 : Collect.revsOfItems items with
    | none => rw [h1] at h; simp at h
    | some r1 =>
      rw [h1] at h
      simp only [Option.bind_eq_bind, Option.some_bind] at h
      cases h2 : Collect.revsOfData rest with
      | none => rw [h2] at h; simp at h
      | some r2 =>
        rw [h2] at h
        simp only [Option.some_bind] at h
        replace h : some (r1 ++ r2) = some rows := h
        injection h with h
        subst h
        rcases List.mem_append.mp hr with hr' | hr'
        · exact revsOfItems_text _ r1 h1 r hr'
        · exact ih r2 h2 r hr'

theorem get_reviews_text (resp : Except String JVal) :
    ∀ r ∈ Collect.get_reviews resp,
      ∃ v n, Row.lookup r "review_text" = some v ∧ Collect.jlen v = some n ∧
        10 ≤ n ∧ (∀ t, v = JVal.str t → 10 ≤ t.length ∧ t ≠ "") := by
  have hmain : ∀ r ∈ Collect.get_reviews resp,
      ∃ v n, Row.lookup r "review_text" = some v ∧
        Collect.jlen v = some n ∧ 10 ≤ n := by
    intro r hr
    cases resp with
    | error e => cases hr
    | ok j =>
      cases j with
      | obj kvs =>
        unfold Collect.get_reviews at hr
        replace hr : r ∈ ((Collect.asIterList (Row.getD kvs "data" (JVal.arr []))).bind
            Collect.revsOfData).getD [] := hr
        cases hit : Collect.asIterList (Row.getD kvs "data" (JVal.arr [])) with
        | none =>
          rw [hit] at hr
          replace hr : r ∈ ([] : List Row) := hr
          cases hr
        | some elems =>
          rw [hit] at hr
          replace hr : r ∈ (Collect.revsOfData elems).getD [] := hr
          cases hd : Collect.revsOfData elems with
          | none =>
            rw [hd] at hr
            replace hr : r ∈ ([] : List Row) := hr
            cases hr
          | some rows =>
            rw [hd] at hr
            replace hr : r ∈ rows := hr
            exact revsOfData_text elems rows hd r hr
      | null => cases hr
      | bool b => cases hr
      | num q => cases hr
      | str s => cases hr
      | arr xs => cases hr
  intro r hr
  obtain ⟨v, n, h1, h2, h3⟩ := hmain r hr
  refine ⟨v, n, h1, h2, h3, ?_⟩
  intro t ht
  subst ht
  simp only [Collect.jlen, Option.some.injEq] at h2
  constructor
  · omega
  · intro he
    subst he
    simp at h2
    omega

/-- C8 amended: every review the remote-API adapter returns has a
`review_text` value whose Python length is at least 10 — in particular a
string text is non-empty with length at least 10 — but the value is
persisted exactly as received and need not be a string (a sized
non-string value such as a ten-element list also passes `len(text)`,
witnessed by the second conjunct), and the rating is persisted
unvalidated; every review the browser-automation adapter accepts has a
non-empty string `review_text` of length at least 5 and an integer
rating between 1 and 9 (a single extracted digit, required positive but
not range-checked against 5). -/
theorem C8_text_and_rating_guarantees :
    (∀ (resp : Except String JVal), ∀ r ∈ Collect.get_reviews resp,
        ∃ v n, Row.lookup r "review_text" = some v ∧ Collect.jlen v = some n ∧
          10 ≤ n ∧ (∀ t, v = JVal.str t → 10 ≤ t.length ∧ t ≠ "")) ∧
    (∀ (nav : Except String Scrape.VisitO) (nm ad : String) (la ln : ℚ)
        (revs : List Row),
        Scrape.scrape_reviews nav = .ok (nm, ad, la, ln, revs) →
        ∀ r ∈ revs, ∃ (t : String) (n : ℕ),
          Row.lookup r "review_text" = some (.str t) ∧ 5 ≤ t.length ∧ t ≠ "" ∧
          Row.lookup r "rating" = some (.num (n : ℚ)) ∧ 1 ≤ n ∧ n ≤ 9) ∧
    (∃ (resp : Except String JVal) (r : Row) (xs : List JVal),
        r ∈ Collect.get_reviews resp ∧
        Row.lookup r "review_text" = some (.arr xs)) :=
  ⟨fun resp => get_reviews_text resp,
   fun nav nm ad la ln revs h => scrape_reviews_shape nav nm ad la ln revs h,
   ⟨.ok Demo.payArrText, Demo.arrTextRow,
    [.num 0, .num 1, .num 2, .num 3, .num 4, .num 5, .num 6, .num 7, .num 8, .num 9],
    by rw [show Collect.get_reviews (.ok Demo.payArrText) = [Demo.arrTextRow] from rfl]
       exact List.mem_singleton.mpr rfl,
    rfl⟩⟩

/-- C8 witness: the theorem applied to the concrete Outscraper payload
and the concrete store-page visit. -/
theorem C8_text_and_rating_guarantees_witness :
    (∃ v n, Row.lookup Demo.revRow "review_text" = some v ∧
      Collect.jlen v = some n ∧ 10 ≤ n ∧
      (∀ t, v = JVal.str t → 10 ≤ t.length ∧ t ≠ "")) ∧
    (∃ (t : String) (n : ℕ),
      Row.lookup Demo.scrapedRow "review_text" = some (.str t) ∧ 5 ≤ t.length ∧
      t ≠ "" ∧ Row.lookup Demo.scrapedRow "rating" = some (.num (n : ℚ)) ∧
      1 ≤ n ∧ n ≤ 9) :=
  ⟨C8_text_and_rating_guarantees.1 (.ok Demo.payR) Demo.revRow
    (by rw [show Collect.get_reviews (.ok Demo.payR) = [Demo.revRow] from rfl]
        exact List.mem_singleton.mpr rfl),
   C8_text_and_rating_guarantees.2.1 (.ok Demo.goodVisit) "Intersport Paris"
    "1 Rue de Rivoli, 75001 Paris" (mkRat 4886 100) (mkRat 234 100)
    [Demo.scrapedRow] rfl Demo.scrapedRow (List.mem_singleton.mpr rfl)⟩
